import Mathlib

/-!
Verification of the training-state containers and utility functions of the
GenCFD repository (src/train/train_states.py and src/utils/train_utils.py).

The embedding is shallow:
* Python dictionaries become association lists over String keys; lookup
  returns the first binding, matching dict semantics for unique keys.
* Tensors holding a single integer step counter become Int; the wrapping
  torch.tensor(n) / unwrapping n.item() pair is the identity on integers,
  so the step field is carried directly as Int.
* Model parameter dictionaries and optimizer state dictionaries are
  abstracted as association lists from names to integer payloads; the code
  never inspects their contents, it only moves them around.
* Mutable Python objects carry an explicit object identifier oid; a
  function that mutates an object in place returns a value with the same
  oid, while constructing a new object uses a caller-supplied fresh oid.
* The file system written by torch.save and read by torch.load is an
  association list from paths to checkpoints.
* A Python call that raises becomes Option (none) or Except (error).
-/

namespace GenCFD

/-- Parameter or optimizer state dictionary: names to abstract tensor
payloads (the code only stores and forwards these, never inspects them). -/
abbrev ParamDict := List (String × Int)

/-- A value stored in a checkpoint dictionary: the integer step counter or a
nested state dictionary. -/
inductive CkptVal where
  | vint (n : Int)
  | vdict (d : ParamDict)
deriving DecidableEq, Repr

/-- A checkpoint as written by torch.save: a dictionary from string keys to
checkpoint values. -/
abbrev Checkpoint := List (String × CkptVal)

/-- Dictionary lookup, returning the first binding of the key. -/
def dictGet? {α : Type} (d : List (String × α)) (k : String) : Option α :=
  match d with
  | [] => none
  | (k2, v) :: rest => if k2 = k then some v else dictGet? rest k

/-- Python dict.get with a default value. -/
def dictGetD {α : Type} (d : List (String × α)) (k : String) (dflt : α) : α :=
  (dictGet? d k).getD dflt

/-- The file system seen by torch.save and torch.load: paths to
checkpoints. -/
abbrev FileSystem := List (String × Checkpoint)

/-- torch.save writes the checkpoint at the path, shadowing any previous
file there. -/
def torch_save (fs : FileSystem) (ckpt_path : String) (c : Checkpoint) : FileSystem :=
  (ckpt_path, c) :: fs

/-- torch.load reads the checkpoint at the path; a missing file raises. -/
def torch_load (fs : FileSystem) (ckpt_path : String) : Option Checkpoint :=
  dictGet? fs ckpt_path

/-- Base train state (train_states.py, class TrainState): the step counter
plus an object identifier modelling Python object identity. -/
structure TrainState where
  oid : Nat
  step : Int
deriving DecidableEq, Repr

/-- TrainState.state_dict: the dictionary holding the step counter
(step.item() is the identity in this embedding). -/
def TrainState.state_dict (s : TrainState) : Checkpoint :=
  [("step", CkptVal.vint s.step)]

/-- TrainState.save_checkpoint: torch.save of state_dict at the path. -/
def TrainState.save_checkpoint (s : TrainState) (ckpt_path : String)
    (fs : FileSystem) : FileSystem :=
  torch_save fs ckpt_path s.state_dict

/-- checkpoint.get("step", dflt) followed by torch.tensor on the result:
yields the stored integer when the key holds one, the default when the key
is absent, and raises (none) when the key holds a dictionary, since
torch.tensor of a dict raises. -/
def ckptStep (c : Checkpoint) (dflt : Int) : Option Int :=
  match dictGet? c "step" with
  | some (CkptVal.vint n) => some n
  | some (CkptVal.vdict _) => none
  | none => some dflt

/-- TrainState.update_from_checkpoint: sets step to
torch.tensor(checkpoint.get("step", self.step)); the object is mutated in
place, so the oid is unchanged. -/
def TrainState.update_from_checkpoint (s : TrainState) (c : Checkpoint) :
    Option TrainState :=
  (ckptStep c s.step).map (fun n => { s with step := n })

/-- cls(**checkpoint) for the base class: the constructor accepts only the
step keyword (raising on any other key) and defaults step to 0; a step
entry holding a dictionary makes torch.tensor raise in the constructor. -/
def TrainState.ofCheckpoint (c : Checkpoint) (fresh : Nat) : Option TrainState :=
  if c.all (fun p => p.1 == "step") then
    match dictGet? c "step" with
    | some (CkptVal.vint n) => some { oid := fresh, step := n }
    | some (CkptVal.vdict _) => none
    | none => some { oid := fresh, step := 0 }
  else none

/-- TrainState.restore_from_checkpoint: torch.load the checkpoint, then
either mutate and return the reference state (line 77 assigns
checkpoint.get("step", ref.step) to the step field and line 78 recomputes
it through update_from_checkpoint with the then-current step as default;
the composite equals one update_from_checkpoint call and keeps the
reference oid) or construct a fresh state via cls(**checkpoint). -/
def TrainState.restore_from_checkpoint (fs : FileSystem) (ckpt_path : String)
    (ref_state : Option TrainState) (fresh : Nat) : Option TrainState :=
  (torch_load fs ckpt_path).bind (fun checkpoint =>
    match ref_state with
    | some r => r.update_from_checkpoint checkpoint
    | none => TrainState.ofCheckpoint checkpoint fresh)

/-- A torch model: an object identifier and its live parameter dictionary. -/
structure Model where
  oid : Nat
  params : ParamDict
deriving DecidableEq, Repr

/-- model.state_dict(): the live parameter dictionary. -/
def Model.state_dict (m : Model) : ParamDict := m.params

/-- model.load_state_dict(d): in-place replacement of the parameters
(structural compatibility is enforced by the framework, abstracted here). -/
def Model.load_state_dict (m : Model) (d : ParamDict) : Model :=
  { m with params := d }

/-- A torch optimizer: an object identifier and its internal state. -/
structure Optimizer where
  oid : Nat
  state : ParamDict
deriving DecidableEq, Repr

/-- optimizer.state_dict(): the live optimizer state dictionary. -/
def Optimizer.state_dict (o : Optimizer) : ParamDict := o.state

/-- optimizer.load_state_dict(d): in-place replacement of the state. -/
def Optimizer.load_state_dict (o : Optimizer) (d : ParamDict) : Optimizer :=
  { o with state := d }

/-- BasicTrainState (train_states.py): model, optimizer, the stored params
and opt_state fields, step counter and an object identifier. -/
structure BasicTrainState where
  oid : Nat
  step : Int
  model : Model
  optimizer : Optimizer
  params : ParamDict
  opt_state : ParamDict
deriving DecidableEq, Repr

/-- BasicTrainState.__init__: params and opt_state default to the state
dictionaries of the passed model and optimizer when not given. -/
def BasicTrainState.init (fresh : Nat) (model : Model) (optimizer : Optimizer)
    (params opt_state : Option ParamDict) (step : Int) : BasicTrainState :=
  { oid := fresh, step := step, model := model, optimizer := optimizer,
    params := params.getD model.state_dict,
    opt_state := opt_state.getD optimizer.state_dict }

/-- BasicTrainState.state_dict: the base dictionary extended with the LIVE
model and optimizer state dictionaries (not the stored fields). -/
def BasicTrainState.state_dict (s : BasicTrainState) : Checkpoint :=
  [("step", CkptVal.vint s.step),
   ("params", CkptVal.vdict s.model.state_dict),
   ("opt_state", CkptVal.vdict s.optimizer.state_dict)]

/-- save_checkpoint as inherited by BasicTrainState: torch.save of the
overridden state_dict. -/
def BasicTrainState.save_checkpoint (s : BasicTrainState) (ckpt_path : String)
    (fs : FileSystem) : FileSystem :=
  torch_save fs ckpt_path s.state_dict

/-- checkpoint[k] expected to hold a nested state dictionary: a missing key
raises KeyError and an integer there makes load_state_dict raise. -/
def ckptDict (c : Checkpoint) (k : String) : Option ParamDict :=
  match dictGet? c k with
  | some (CkptVal.vdict d) => some d
  | _ => none

/-- BasicTrainState.restore_from_checkpoint: a classmethod taking a model
and an optimizer (no reference state in this override); it loads the saved
dictionaries into them in place and returns a NEWLY constructed state. -/
def BasicTrainState.restore_from_checkpoint (fs : FileSystem)
    (ckpt_path : String) (model : Model) (optimizer : Optimizer)
    (fresh : Nat) : Option BasicTrainState :=
  (torch_load fs ckpt_path).bind (fun checkpoint =>
    (ckptDict checkpoint "params").bind (fun p =>
      (ckptDict checkpoint "opt_state").bind (fun o =>
        (ckptStep checkpoint 0).map (fun st =>
          BasicTrainState.init fresh (model.load_state_dict p)
            (optimizer.load_state_dict o) (some p) (some o) st))))

/-- BasicTrainState.update_from_checkpoint: step via the base update, then
the model and optimizer are loaded in place from checkpoint["params"] and
checkpoint["opt_state"]; the oid of the mutated state is unchanged. -/
def BasicTrainState.update_from_checkpoint (s : BasicTrainState)
    (c : Checkpoint) : Option BasicTrainState :=
  (ckptStep c s.step).bind (fun st =>
    (ckptDict c "params").bind (fun p =>
      (ckptDict c "opt_state").map (fun o =>
        { s with
           step := st
           model := s.model.load_state_dict p
           optimizer := s.optimizer.load_state_dict o })))

/-- BasicTrainState.replace: overwrites the step and the STORED params and
opt_state fields in place; the model and optimizer objects are untouched. -/
def BasicTrainState.replace (s : BasicTrainState) (step : Int)
    (params opt_state : ParamDict) : BasicTrainState :=
  { s with step := step, params := params, opt_state := opt_state }

/-- AveragedModel as used here: it wraps a deep copy of the model (the
averaging mathematics is delegated entirely to the framework). -/
structure EmaModel where
  module : Model
deriving DecidableEq, Repr

/-- AveragedModel.module.state_dict(). -/
def EmaModel.state_dict (e : EmaModel) : ParamDict := e.module.state_dict

/-- DenoisingModelTrainState: BasicTrainState plus the EMA shadow model and
the ema parameter field; ema_decay only configures the framework averaging
helper and carries no logic here, so it is not modelled. -/
structure DenoisingModelTrainState where
  oid : Nat
  step : Int
  model : Model
  optimizer : Optimizer
  params : ParamDict
  opt_state : ParamDict
  ema : ParamDict
  ema_model : Option EmaModel
deriving DecidableEq, Repr

/-- The exception type of a raising Python call. -/
def excRaises {ε α : Type} : Except ε α → Bool
  | Except.error _ => true
  | Except.ok _ => false

/-- DenoisingModelTrainState.ema_parameters: guarded by the truthiness of
self.ema_model; an AveragedModel instance is always truthy (nn.Module
defines neither a boolean conversion nor a length) and None is falsy, so
the guard is exactly an is-not-None test. On None it raises ValueError
with the message below. -/
def DenoisingModelTrainState.ema_parameters (s : DenoisingModelTrainState) :
    Except String ParamDict :=
  match s.ema_model with
  | some m => Except.ok m.module.state_dict
  | none => Except.error "EMA model is None"

/-- state_dict as inherited by DenoisingModelTrainState (BasicTrainState
does not get overridden further): step plus live model and optimizer
dictionaries. -/
def DenoisingModelTrainState.state_dict (s : DenoisingModelTrainState) :
    Checkpoint :=
  [("step", CkptVal.vint s.step),
   ("params", CkptVal.vdict s.model.state_dict),
   ("opt_state", CkptVal.vdict s.optimizer.state_dict)]

/-- save_checkpoint as inherited by DenoisingModelTrainState. -/
def DenoisingModelTrainState.save_checkpoint (s : DenoisingModelTrainState)
    (ckpt_path : String) (fs : FileSystem) : FileSystem :=
  torch_save fs ckpt_path s.state_dict

/-- Claim C1: for every TrainState with step n, save_checkpoint to a path
followed by restore_from_checkpoint on that path with no reference state
yields a state whose step equals n exactly. -/
theorem save_restore_roundtrips_step (s : TrainState) (ckpt_path : String)
    (fs : FileSystem) (fresh : Nat) :
    (TrainState.restore_from_checkpoint (s.save_checkpoint ckpt_path fs)
        ckpt_path none fresh).map TrainState.step = some s.step := by
  simp [TrainState.restore_from_checkpoint, TrainState.save_checkpoint,
    torch_save, torch_load, dictGet?, TrainState.ofCheckpoint,
    TrainState.state_dict]

/-- A Python value as classified by is_scalar (train_utils.py): float and
numpy-number payloads are irrelevant to the classification and carry no
data; arrays and tensors carry their shape, whose length is ndim and whose
product is numel(); otherValue stands for a value of any other type. -/
inductive PyValue where
  | pyInt (n : Int)
  | pyFloat
  | npNumber
  | npArray (shape : List Nat)
  | torchTensor (shape : List Nat)
  | otherValue (tag : Nat)
deriving DecidableEq, Repr

/-- is_scalar (train_utils.py): true on int, float and numpy numbers; on
numpy arrays and torch tensors true exactly when ndim == 0 or
numel() <= 1; false on every other type. -/
def is_scalar (value : PyValue) : Bool :=
  match value with
  | PyValue.pyInt _ => true
  | PyValue.pyFloat => true
  | PyValue.npNumber => true
  | PyValue.npArray shape => shape.length == 0 || decide (shape.prod ≤ 1)
  | PyValue.torchTensor shape => shape.length == 0 || decide (shape.prod ≤ 1)
  | PyValue.otherValue _ => false

/-- opt_chain (train_utils.py): returns transformations[0] when the
sequence has exactly one element and raises NotImplementedError on every
other length. -/
def opt_chain (transformations : List Optimizer) : Except String Optimizer :=
  if h : transformations.length = 1 then
    Except.ok (transformations.get ⟨0, by omega⟩)
  else
    Except.error
      "PyTorch does not support chaining optimizers. Use custom optimizer Logic."

/-- A method body as stored in the class dictionary: self and the
arguments are collapsed into one integer input; the result is an optional
integer, with none standing for Python None. -/
abbrev MethodFn := Int → Option Int

/-- A method of the decorated class; the runtime-assigned process rank is
the extra first argument. -/
abbrev RankedFn := Int → Int → Option Int

/-- An attribute in the class dictionary: a callable method or plain
data. -/
inductive ClsAttr where
  | meth (f : MethodFn)
  | data (v : Int)

/-- An attribute after the decorator ran. -/
inductive RankedAttr where
  | meth (f : RankedFn)
  | data (v : Int)

/-- The wrapper built inside primary_process_only: run the original method
and return its result when the rank is 0, return None on every other rank
without executing the body. -/
def wrap_method (f : MethodFn) : RankedFn :=
  fun rank arg => if rank = 0 then f arg else none

/-- An attribute left undecorated ignores the rank. -/
def unwrapped (f : MethodFn) : RankedFn :=
  fun _ arg => f arg

/-- attr_name.startswith("__") over the characters of the name. -/
def startsWithDunder (name : String) : Bool :=
  match name.data with
  | c1 :: c2 :: _ => c1 == '_' && c2 == '_'
  | _ => false

/-- The per-attribute action of the decorator loop: a callable attribute
whose name does not start with a double underscore is wrapped; every other
attribute is left as it is. -/
def decorateAttr (name : String) (a : ClsAttr) : RankedAttr :=
  match a with
  | ClsAttr.meth f =>
    if startsWithDunder name then RankedAttr.meth (unwrapped f)
    else RankedAttr.meth (wrap_method f)
  | ClsAttr.data v => RankedAttr.data v

/-- primary_process_only (train_utils.py): the loop over the class
dictionary, wrapping each eligible method via setattr. -/
def primary_process_only : List (String × ClsAttr) → List (String × RankedAttr)
  | [] => []
  | (name, a) :: rest => (name, decorateAttr name a) :: primary_process_only rest

/-- Lookup of a decorated attribute is the decorated lookup. -/
theorem dictGet_primary_process_only (attrs : List (String × ClsAttr))
    (name : String) :
    dictGet? (primary_process_only attrs) name
      = (dictGet? attrs name).map (decorateAttr name) := by
  induction attrs with
  | nil => rfl
  | cons a rest ih =>
    obtain ⟨nm, at0⟩ := a
    by_cases hk : nm = name
    · subst hk
      simp [primary_process_only, dictGet?]
    · simp [primary_process_only, dictGet?, hk, ih]

/-- Claim C4: reading ema_parameters raises exactly when the ema_model of
the state is absent (None); otherwise it returns the parameter dictionary
of the EMA model without raising. -/
theorem ema_parameters_raises_iff_ema_absent (s : DenoisingModelTrainState) :
    (excRaises s.ema_parameters = true ↔ s.ema_model = none) ∧
    (∀ m, s.ema_model = some m →
      s.ema_parameters = Except.ok m.module.state_dict) := by
  cases h : s.ema_model <;>
    simp [DenoisingModelTrainState.ema_parameters, h, excRaises]

/-- Witness for C4 at a state whose EMA model is present. -/
theorem ema_parameters_raises_iff_ema_absent_witness :
    DenoisingModelTrainState.ema_parameters
        { oid := 0, step := 0, model := { oid := 1, params := [] },
          optimizer := { oid := 2, state := [] }, params := [],
          opt_state := [], ema := [("w", 5)],
          ema_model := some { module := { oid := 3, params := [("w", 5)] } } }
      = Except.ok [("w", 5)] :=
  (ema_parameters_raises_iff_ema_absent
      { oid := 0, step := 0, model := { oid := 1, params := [] },
        optimizer := { oid := 2, state := [] }, params := [],
        opt_state := [], ema := [("w", 5)],
        ema_model := some { module := { oid := 3, params := [("w", 5)] } } }).2
    { module := { oid := 3, params := [("w", 5)] } } rfl

/-- Claim C5 (amended): restore_from_checkpoint of the base TrainState with
a reference state mutates and returns the reference object itself (same
oid) with its fields updated exactly as update_from_checkpoint does, while
the override in BasicTrainState (inherited by DenoisingModelTrainState)
takes a model and an optimizer instead of a reference state and always
returns a newly constructed state carrying the fresh object identifier. -/
theorem restore_with_ref_preserves_identity :
    (∀ (fs : FileSystem) (p : String) (r : TrainState) (fresh : Nat)
        (s2 : TrainState),
      TrainState.restore_from_checkpoint fs p (some r) fresh = some s2 →
      s2.oid = r.oid) ∧
    (∀ (fs : FileSystem) (p : String) (r : TrainState) (fresh : Nat)
        (c : Checkpoint) (s2 : TrainState),
      torch_load fs p = some c →
      TrainState.restore_from_checkpoint fs p (some r) fresh = some s2 →
      TrainState.update_from_checkpoint r c = some s2) ∧
    (∀ (fs : FileSystem) (p : String) (m : Model) (o : Optimizer)
        (fresh : Nat) (s2 : BasicTrainState),
      BasicTrainState.restore_from_checkpoint fs p m o fresh = some s2 →
      s2.oid = fresh) := by
  refine ⟨?_, ?_, ?_⟩
  · intro fs p r fresh s2 h
    cases hl : torch_load fs p with
    | none =>
      have hz : TrainState.restore_from_checkpoint fs p (some r) fresh = none := by
        unfold TrainState.restore_from_checkpoint
        rw [hl]
        rfl
      rw [hz] at h
      exact absurd h (by simp)
    | some c =>
      have he : TrainState.restore_from_checkpoint fs p (some r) fresh
          = TrainState.update_from_checkpoint r c := by
        unfold TrainState.restore_from_checkpoint
        rw [hl]
        rfl
      rw [he] at h
      unfold TrainState.update_from_checkpoint at h
      cases hs : ckptStep c r.step with
      | none => rw [hs] at h; exact absurd h (by simp)
      | some n =>
        rw [hs] at h
        have h2 := Option.some.inj h
        subst h2
        rfl
  · intro fs p r fresh c s2 h1 h2
    unfold TrainState.restore_from_checkpoint at h2
    rw [h1] at h2
    exact h2
  · intro fs p m o fresh s2 h
    cases hl : torch_load fs p with
    | none =>
      have hz : BasicTrainState.restore_from_checkpoint fs p m o fresh = none := by
        unfold BasicTrainState.restore_from_checkpoint
        rw [hl]
        rfl
      rw [hz] at h
      exact absurd h (by simp)
    | some c =>
      have he : BasicTrainState.restore_from_checkpoint fs p m o fresh
          = (ckptDict c "params").bind (fun pd =>
              (ckptDict c "opt_state").bind (fun od =>
                (ckptStep c 0).map (fun st =>
                  BasicTrainState.init fresh (m.load_state_dict pd)
                    (o.load_state_dict od) (some pd) (some od) st))) := by
        unfold BasicTrainState.restore_from_checkpoint
        rw [hl]
        rfl
      rw [he] at h
      cases hp : ckptDict c "params" with
      | none => rw [hp] at h; exact absurd h (by simp)
      | some pd =>
        rw [hp] at h
        cases ho : ckptDict c "opt_state" with
        | none => rw [ho] at h; exact absurd h (by simp)
        | some od =>
          rw [ho] at h
          cases hs : ckptStep c 0 with
          | none => rw [hs] at h; exact absurd h (by simp)
          | some st =>
            rw [hs] at h
            have h2 := Option.some.inj h
            subst h2
            rfl

/-- Witness for C5 (amended): a concrete restore into a reference state at
oid 6 returns a state with oid 6. -/
theorem restore_with_ref_preserves_identity_witness :
    TrainState.restore_from_checkpoint [("p", [("step", CkptVal.vint 4)])]
        "p" (some { oid := 6, step := 1 }) 9 = some { oid := 6, step := 4 } ∧
    ({ oid := 6, step := 4 } : TrainState).oid
      = ({ oid := 6, step := 1 } : TrainState).oid :=
  ⟨rfl, restore_with_ref_preserves_identity.1
    [("p", [("step", CkptVal.vint 4)])] "p" { oid := 6, step := 1 } 9
    { oid := 6, step := 4 } rfl⟩

/-- Claim C5 fails as stated: the BasicTrainState override of
restore_from_checkpoint takes a model and an optimizer rather than a
reference state and returns a newly constructed object, here carrying the
fresh oid 7 distinct from the oid 0 of every pre-existing object. -/
theorem basic_restore_returns_new_object :
    (BasicTrainState.restore_from_checkpoint
        [("ckpt", [("step", CkptVal.vint 3),
                   ("params", CkptVal.vdict [("w", 1)]),
                   ("opt_state", CkptVal.vdict [("m", 2)])])]
        "ckpt" { oid := 0, params := [("w", 0)] }
        { oid := 0, state := [("m", 0)] } 7).map BasicTrainState.oid
      = some 7 ∧ (7 : Nat) ≠ 0 := by
  exact ⟨rfl, by decide⟩

/-- Claim C6 fails as stated: a state at step 5 updated from a checkpoint
recorded at step 0 ends at step 0, strictly below 5; the code has no
monotonicity guard on checkpoint loads. -/
theorem step_can_decrease_on_load :
    TrainState.update_from_checkpoint { oid := 0, step := 5 }
        [("step", CkptVal.vint 0)] = some { oid := 0, step := 0 } ∧
    ¬ ((5 : Int) ≤ 0) := by
  exact ⟨rfl, by decide⟩

/-- Claim C6 (amended): after update_from_checkpoint (and hence after a
restore with a reference state, which performs the same update) the step
equals the step recorded in the checkpoint when present and stays at the
prior step when the key is absent; it is at least the prior step exactly
when the loaded value is, since no monotonicity is enforced. -/
theorem step_follows_checkpoint (s : TrainState) (c : Checkpoint)
    (s2 : TrainState)
    (h : TrainState.update_from_checkpoint s c = some s2) :
    (dictGet? c "step" = none → s2.step = s.step) ∧
    (∀ n, dictGet? c "step" = some (CkptVal.vint n) → s2.step = n) ∧
    (∀ n, dictGet? c "step" = some (CkptVal.vint n) → s.step ≤ n →
      s.step ≤ s2.step) := by
  unfold TrainState.update_from_checkpoint ckptStep at h
  refine ⟨?_, ?_, ?_⟩
  · intro hn
    rw [hn] at h
    have h2 := Option.some.inj h
    subst h2
    rfl
  · intro n hn
    rw [hn] at h
    have h2 := Option.some.inj h
    subst h2
    rfl
  · intro n hn hle
    rw [hn] at h
    have h2 := Option.some.inj h
    subst h2
    exact hle

/-- Witness for C6 (amended): a concrete update whose checkpoint step 9 is
recorded and returned. -/
theorem step_follows_checkpoint_witness :
    TrainState.update_from_checkpoint { oid := 0, step := 2 }
        [("step", CkptVal.vint 9)] = some { oid := 0, step := 9 } ∧
    ({ oid := 0, step := 9 } : TrainState).step = 9 :=
  ⟨rfl, (step_follows_checkpoint { oid := 0, step := 2 }
      [("step", CkptVal.vint 9)] { oid := 0, step := 9 } rfl).2.1 9 rfl⟩

/-- Claim C7: every checkpoint written by save_checkpoint carries the step
key, and for BasicTrainState and DenoisingModelTrainState it additionally
carries the params and opt_state keys. -/
theorem saved_checkpoint_keys :
    (∀ (s : TrainState) (p : String) (fs : FileSystem),
      torch_load (s.save_checkpoint p fs) p = some s.state_dict ∧
      (dictGet? s.state_dict "step").isSome = true) ∧
    (∀ (s : BasicTrainState) (p : String) (fs : FileSystem),
      torch_load (s.save_checkpoint p fs) p = some s.state_dict ∧
      (dictGet? s.state_dict "step").isSome = true ∧
      (dictGet? s.state_dict "params").isSome = true ∧
      (dictGet? s.state_dict "opt_state").isSome = true) ∧
    (∀ (s : DenoisingModelTrainState) (p : String) (fs : FileSystem),
      torch_load (s.save_checkpoint p fs) p = some s.state_dict ∧
      (dictGet? s.state_dict "step").isSome = true ∧
      (dictGet? s.state_dict "params").isSome = true ∧
      (dictGet? s.state_dict "opt_state").isSome = true) := by
  refine ⟨?_, ?_, ?_⟩
  · intro s p fs
    exact ⟨by simp [TrainState.save_checkpoint, torch_save, torch_load,
      dictGet?], rfl⟩
  · intro s p fs
    exact ⟨by simp [BasicTrainState.save_checkpoint, torch_save, torch_load,
      dictGet?], rfl, rfl, rfl⟩
  · intro s p fs
    exact ⟨by simp [DenoisingModelTrainState.save_checkpoint, torch_save,
      torch_load, dictGet?], rfl, rfl, rfl⟩

/-- Claim C9: BasicTrainState.state_dict takes the params and opt_state
entries from the live model and optimizer state dictionaries rather than
from the stored fields, so replace (which only rewrites the stored fields
and the step) changes neither entry of what a subsequent save_checkpoint
writes. -/
theorem state_dict_reads_live_objects (s : BasicTrainState) (n : Int)
    (p o : ParamDict) (ckpt_path : String) (fs : FileSystem) :
    dictGet? s.state_dict "params"
      = some (CkptVal.vdict s.model.state_dict) ∧
    dictGet? s.state_dict "opt_state"
      = some (CkptVal.vdict s.optimizer.state_dict) ∧
    dictGet? (BasicTrainState.state_dict (s.replace n p o)) "params"
      = dictGet? s.state_dict "params" ∧
    dictGet? (BasicTrainState.state_dict (s.replace n p o)) "opt_state"
      = dictGet? s.state_dict "opt_state" ∧
    torch_load ((s.replace n p o).save_checkpoint ckpt_path fs) ckpt_path
      = some (BasicTrainState.state_dict (s.replace n p o)) := by
  refine ⟨rfl, rfl, rfl, rfl, ?_⟩
  simp [BasicTrainState.save_checkpoint, torch_save, torch_load, dictGet?]

/-- Claim C10: restoring with a reference state from a checkpoint that has
no step key leaves the step of the reference unchanged (the existing step
is the default). -/
theorem restore_missing_step_keeps_step (fs : FileSystem) (p : String)
    (r : TrainState) (fresh : Nat) (c : Checkpoint)
    (hload : torch_load fs p = some c)
    (hnostep : dictGet? c "step" = none) :
    (TrainState.restore_from_checkpoint fs p (some r) fresh).map
        TrainState.step = some r.step := by
  simp [TrainState.restore_from_checkpoint, hload,
    TrainState.update_from_checkpoint, ckptStep, hnostep]

/-- Witness for C10: a concrete checkpoint without a step key leaves the
step of the reference at 11. -/
theorem restore_missing_step_keeps_step_witness :
    (TrainState.restore_from_checkpoint
        [("p", [("other", CkptVal.vint 1)])] "p"
        (some { oid := 0, step := 11 }) 5).map TrainState.step = some 11 :=
  restore_missing_step_keeps_step [("p", [("other", CkptVal.vint 1)])] "p"
    { oid := 0, step := 11 } 5 [("other", CkptVal.vint 1)] rfl rfl

/-- Claim C2: opt_chain returns the unique element itself on one-element
sequences and raises on every sequence of any other length, the empty
sequence included. -/
theorem opt_chain_single_or_raises :
    (∀ t : Optimizer, opt_chain [t] = Except.ok t) ∧
    (∀ ts : List Optimizer, ts.length ≠ 1 →
      excRaises (opt_chain ts) = true) := by
  constructor
  · intro t
    rfl
  · intro ts h
    unfold opt_chain
    rw [dif_neg h]
    rfl

/-- Witness for C2: the empty sequence raises. -/
theorem opt_chain_single_or_raises_witness :
    excRaises (opt_chain []) = true :=
  opt_chain_single_or_raises.2 [] (by decide)

/-- Claim C3: is_scalar is true on Python ints, floats and numpy numbers
and on 0-dimensional or single-element arrays and tensors; it is false on
arrays and tensors with more than one element and on values of any other
type. -/
theorem is_scalar_classification :
    (∀ n, is_scalar (PyValue.pyInt n) = true) ∧
    is_scalar PyValue.pyFloat = true ∧
    is_scalar PyValue.npNumber = true ∧
    (∀ shape, shape.length = 0 ∨ shape.prod = 1 →
      is_scalar (PyValue.npArray shape) = true ∧
      is_scalar (PyValue.torchTensor shape) = true) ∧
    (∀ shape, 1 < shape.prod →
      is_scalar (PyValue.npArray shape) = false ∧
      is_scalar (PyValue.torchTensor shape) = false) ∧
    (∀ tag, is_scalar (PyValue.otherValue tag) = false) := by
  refine ⟨fun n => rfl, rfl, rfl, ?_, ?_, fun tag => rfl⟩
  · intro shape h
    have hb : (shape.length == 0 || decide (shape.prod ≤ 1)) = true := by
      rcases h with h | h
      · simp [h]
      · simp [h]
    exact ⟨hb, hb⟩
  · intro shape h
    have hlen : shape.length ≠ 0 := by
      intro h0
      rw [List.length_eq_zero] at h0
      subst h0
      simp at h
    have hb : (shape.length == 0 || decide (shape.prod ≤ 1)) = false := by
      simp [hlen]
      omega
    exact ⟨hb, hb⟩

/-- Witness for C3: a 0-dimensional array is scalar and a 2x3 tensor is
not. -/
theorem is_scalar_classification_witness :
    is_scalar (PyValue.npArray []) = true ∧
    is_scalar (PyValue.torchTensor [2, 3]) = false :=
  ⟨(is_scalar_classification.2.2.2.1 [] (Or.inl rfl)).1,
   (is_scalar_classification.2.2.2.2.1 [2, 3] (by decide)).2⟩

/-- Claim C8: for every decorated class and every callable attribute whose
name does not start with a double underscore, the decorated method runs
the original and returns its result when the runtime rank is 0, and on
every nonzero rank returns None independently of the original body. -/
theorem primary_process_only_gates (attrs : List (String × ClsAttr))
    (name : String) (f : MethodFn)
    (hname : startsWithDunder name = false)
    (hfind : dictGet? attrs name = some (ClsAttr.meth f)) :
    ∃ g, dictGet? (primary_process_only attrs) name
        = some (RankedAttr.meth g) ∧
      (∀ arg, g 0 arg = f arg) ∧
      (∀ rank, rank ≠ 0 → ∀ arg, g rank arg = none) := by
  refine ⟨wrap_method f, ?_, ?_, ?_⟩
  · rw [dictGet_primary_process_only, hfind]
    simp [decorateAttr, hname]
  · intro arg
    simp [wrap_method]
  · intro rank hr arg
    simp [wrap_method, hr]

/-- Witness for C8: a concrete one-method class gated on the rank. -/
theorem primary_process_only_gates_witness :
    ∃ g, dictGet? (primary_process_only
          [("train", ClsAttr.meth (fun n => some (n + 1)))]) "train"
        = some (RankedAttr.meth g) ∧
      (∀ arg, g 0 arg = (fun n : Int => some (n + 1)) arg) ∧
      (∀ rank, rank ≠ 0 → ∀ arg, g rank arg = none) :=
  primary_process_only_gates
    [("train", ClsAttr.meth (fun n => some (n + 1)))] "train"
    (fun n => some (n + 1)) (by decide) rfl

end GenCFD
